import Mathlib

/-!
Shallow embedding of the APIv4 repository (gateway, comment store, censor,
news source) for checking the specification claims.

The repository contains two gateway implementations:
* variant A, `src/api-gateway/main.go` — concurrent fan-out via a channel; its
  model lives in namespace `Gateway`;
* variant B, the `App` gateway inside `src/unnamed/part_000` — sequential
  calls with hardcoded pagination; its model lives in namespace `AppGateway`.

The comment store `src/comment-service/main.go` is modelled in namespace
`CommentService` with the SQLite table as a list of rows.

Machine integers are modelled as `Int` (no arithmetic in the sources comes
near an overflow); JSON numbers, which Go decodes as float64, are modelled as
`Int` because every number the services exchange is an integer id or count.
-/

namespace APIv4

/-- A decoded Go `interface\x7b\x7d` value as produced by `encoding/json`:
either JSON null (also used for an absent map key, which Go reads as a nil
interface value), a boolean, a number, a string, an array, or an object. -/
inductive GoVal where
  | vnull
  | vbool (b : Bool)
  | vnum (n : Int)
  | vstr (s : String)
  | varr (elems : List GoVal)
  | vobj (fields : List (String × GoVal))

/-- `Pagination` struct shared by all services:
page, page_size, total, page_count. -/
structure Pagination where
  page : Int
  pageSize : Int
  total : Int
  pageCount : Int
deriving DecidableEq

/-- The `Response` envelope every service returns, as the gateway decodes it:
`data` is a loosely typed value (`GoVal.vnull` when the field is absent or
JSON null — both decode to a nil interface value in Go). -/
structure EnvelopeG where
  status : String
  data : GoVal
  error : String
  pagination : Option Pagination

/-- Value of a decimal digit character, `none` for a non-digit. -/
def digitVal (c : Char) : Option Nat :=
  if '0' ≤ c ∧ c ≤ '9' then some (c.toNat - '0'.toNat) else none

/-- Accumulate a digit string into a natural number; fails on a non-digit. -/
def parseDigits (cs : List Char) : Option Nat :=
  cs.foldlM (fun acc c =>
    match digitVal c with
    | some d => some (acc * 10 + d)
    | none => none) 0

/-- Model of Go `strconv.Atoi`: optional sign followed by at least one
digit; everything else is an error (`none`).  Overflow, which Go also
reports as an error, is not modelled — no claim involves inputs near it. -/
def goAtoi (s : String) : Option Int :=
  match s.data with
  | [] => none
  | '-' :: rest =>
    if rest.isEmpty then none else (parseDigits rest).map (fun n => -(n : Int))
  | '+' :: rest =>
    if rest.isEmpty then none else (parseDigits rest).map (fun n => (n : Int))
  | cs => (parseDigits cs).map (fun n => (n : Int))

/-- Go map indexing `m["k"]`: the stored value, or a nil interface value
(modelled as `vnull`) when the key is absent. -/
def lookupField (fields : List (String × GoVal)) (k : String) : GoVal :=
  match fields.find? (fun p => p.1 == k) with
  | some p => p.2
  | none => .vnull

namespace Gateway

/-!
Variant A: `src/api-gateway/main.go`.
-/

/-- A comment as decoded by `GetNewsWithCommentsHandler` (the `created_at`
timestamp is dropped from the model: the handler always produces one —
`time.Now()` as a fallback — and no claim mentions it). -/
structure Comment where
  id : Int
  newsId : Int
  parentId : Option Int
  text : String
deriving DecidableEq

/-- A news article with its attached comments, as assembled by
`GetNewsWithCommentsHandler` (timestamp dropped, as for `Comment`). -/
structure News where
  id : Int
  title : String
  content : String
  comments : List Comment

/-- What one downstream `client.Get` produces as seen by variant A.  The
handler never inspects `resp.StatusCode`, so only the body matters: a
transport error (connection refused or 10s client timeout), a body that
`json.Decode` rejects, or a decoded envelope. -/
inductive Fetch where
  | transportErr
  | badBody
  | body (e : EnvelopeG)

/-- Result of the news goroutine's dynamic decode of `newsResponse.Data`:
`ok` when `Data` is a map with the three unguarded type assertions
`news["id"].(float64)`, `news["title"].(string)`,
`news["content"].(string)` all succeeding; `formatErr` when `Data` is not a
map (the handler sends an explicit error through the channel); `panicked`
when `Data` is a map but one of the assertions fails.  The guarded
`created_at` branch cannot fail and is dropped from the model. -/
inductive NewsDecode where
  | ok (id : Int) (title : String) (content : String)
  | formatErr
  | panicked

/-- Dynamic decode of the news envelope's `data` field, `main.go:224-242`. -/
def decodeNewsData : GoVal → NewsDecode
  | .vobj fields =>
    match lookupField fields "id", lookupField fields "title",
          lookupField fields "content" with
    | .vnum i, .vstr t, .vstr c => .ok i t c
    | _, _, _ => .panicked
  | _ => .formatErr

/-- Decode of one element of the comments array, `main.go:263-287`: a
non-map element is silently skipped (the `ok` cast guard); a map element is
read with unguarded assertions on `id`, `news_id`, `text` and, when
`parent_id` is present and non-nil, on `parent_id` — each failing assertion
is a panic.  `some none` = element skipped, `some (some c)` = appended,
`none` = panic. -/
def decodeCommentItem : GoVal → Option (Option Comment)
  | .vobj fields =>
    match lookupField fields "id", lookupField fields "news_id",
          lookupField fields "text" with
    | .vnum i, .vnum n, .vstr t =>
      match fields.find? (fun p => p.1 == "parent_id") with
      | none => some (some ⟨i, n, none, t⟩)
      | some (_, .vnull) => some (some ⟨i, n, none, t⟩)
      | some (_, .vnum pid) => some (some ⟨i, n, some pid, t⟩)
      | some _ => none
    | _, _, _ => none
  | _ => some none

/-- The loop over the decoded comments array; `none` = some element
panicked, otherwise the appended comments in order. -/
def decodeItems : List GoVal → Option (List Comment)
  | [] => some []
  | v :: rest =>
    match decodeCommentItem v with
    | none => none
    | some none => decodeItems rest
    | some (some c) => (decodeItems rest).map (fun cs => c :: cs)

/-- Dynamic decode of the comments envelope's `data` field: when `Data` is
not a `[]interface\x7b\x7d` the cast guard fails and `comments` silently
stays nil — the goroutine still reports success with an empty list. -/
def decodeCommentsData (v : GoVal) : Option (List Comment) :=
  match v with
  | .varr elems => decodeItems elems
  | _ => some []

/-- Outcome of the news goroutine (`main.go:209-243`): an error sent on the
channel, an unrecovered panic, or a decoded article. -/
inductive NewsSide where
  | err
  | panicked
  | ok (id : Int) (title : String) (content : String)
deriving DecidableEq

/-- News goroutine, as a function of its fetch outcome. -/
def newsSideResult : Fetch → NewsSide
  | .transportErr => .err
  | .badBody => .err
  | .body e =>
    match decodeNewsData e.data with
    | .ok i t c => .ok i t c
    | .formatErr => .err
    | .panicked => .panicked

/-- Outcome of the comments goroutine (`main.go:246-291`). -/
inductive CommentsSide where
  | err
  | panicked
  | ok (comments : List Comment)
deriving DecidableEq

/-- Comments goroutine, as a function of its fetch outcome. -/
def commentsSideResult : Fetch → CommentsSide
  | .transportErr => .err
  | .badBody => .err
  | .body e =>
    match decodeCommentsData e.data with
    | some cs => .ok cs
    | none => .panicked

/-- What the client observes from `GetNewsWithCommentsHandler` after the id
parsed: a 500 error (the collection loop returns on the first error read
from the channel), a crash (a panic inside a `go func` is not recovered by
the router middleware and kills the process), or the success envelope with
the article and its comments attached. -/
inductive Outcome where
  | crashed
  | serverError
  | success (article : News)

/-- The join at `main.go:293-321`: both goroutine results are collected
from the channel; the first error wins, otherwise the comments are attached
to the article and a success envelope is written.  A panic on either side
crashes the process (modelled with priority over the error response, which
only matters when one side panics and the other errs — either way no
success view is produced). -/
def GetNewsWithCommentsHandler_join (newsF commentsF : Fetch) : Outcome :=
  match newsSideResult newsF, commentsSideResult commentsF with
  | .panicked, _ => .crashed
  | _, .panicked => .crashed
  | .err, _ => .serverError
  | _, .err => .serverError
  | .ok i t c, .ok cs => .success ⟨i, t, c, cs⟩

/-- Route decision of `GetNewsWithCommentsHandler` on the path id
(`main.go:192-197`): only `strconv.Atoi` failure is rejected with 400;
any parsed integer — including zero and negatives — is forwarded to both
downstream services. -/
inductive Route where
  | reject400
  | fetch (newsId : Int)
deriving DecidableEq

/-- Id validation of variant A: 400 only when `Atoi` fails. -/
def GetNewsWithCommentsHandler_route (idStr : String) : Route :=
  match goAtoi idStr with
  | none => .reject400
  | some n => .fetch n

/-- Page clamp of `GetNewsHandler` (`main.go:152-155`): `page <= 0` becomes
1 (`Atoi` failure yields 0, hence also 1). -/
def GetNewsHandler_page (n : Int) : Int :=
  if n ≤ 0 then 1 else n

/-- Page-size clamp of `GetNewsHandler` (`main.go:157-160`): only
`pageSize <= 0` is replaced by 10; any positive value — 1000 included — is
forwarded to News Source unchanged. -/
def GetNewsHandler_pageSize (n : Int) : Int :=
  if n ≤ 0 then 10 else n

/-- Client-visible outcome of `GetNewsHandler` (`main.go:164-186`). -/
inductive ListOutcome where
  | serverError
  | relay (e : EnvelopeG)

/-- `GetNewsHandler` body after the clamps: transport error or undecodable
body give a 500; otherwise the decoded envelope — pagination block
included — is re-encoded to the client unchanged. -/
def GetNewsHandler_relay (f : Fetch) : ListOutcome :=
  match f with
  | .transportErr => .serverError
  | .badBody => .serverError
  | .body e => .relay e

/-- Body of a `POST /comment` request once decoded. -/
structure CreateReq where
  newsId : Int
  parentId : Option Int
  text : String
deriving DecidableEq

/-- Outcome of the censor call as `CreateCommentHandler` sees it. -/
inductive CensorCall where
  | transportErr
  | status (code : Int)
deriving DecidableEq

/-- Outcome of the persist call to Comment Store: transport error, or a
status code with a body that does or does not decode as an envelope. -/
inductive PersistCall where
  | transportErr
  | resp (code : Int) (body : Option EnvelopeG)

/-- The response written by a gateway comment-creation handler. -/
inductive CreateResp where
  | err (code : Int)
  | okEnvelope (e : EnvelopeG)
  | okData (d : GoVal)

/-- Result of a gateway comment-creation handler together with whether the
persist request to Comment Store was issued at all. -/
structure CreateResult where
  response : CreateResp
  persistCalled : Bool

/-- `CreateCommentHandler` (`main.go:325-392`): decode the body, then call
the censor; a censor transport error is a 500, a censor non-200 status is a
400 (forbidden content) — in both cases the pipeline halts before any
request to Comment Store.  Only after a censor 200 is the persist request
issued; its envelope is relayed verbatim on success. -/
def CreateCommentHandler (body : Option CreateReq) (censor : CensorCall)
    (persist : PersistCall) : CreateResult :=
  match body with
  | none => ⟨.err 400, false⟩
  | some _ =>
    match censor with
    | .transportErr => ⟨.err 500, false⟩
    | .status c =>
      if c ≠ 200 then ⟨.err 400, false⟩
      else
        match persist with
        | .transportErr => ⟨.err 500, true⟩
        | .resp pc pb =>
          if pc ≠ 200 then ⟨.err pc, true⟩
          else
            match pb with
            | none => ⟨.err 500, true⟩
            | some e => ⟨.okEnvelope e, true⟩

end Gateway

namespace AppGateway

/-!
Variant B: the `App` gateway in `src/unnamed/part_000` (sequential calls,
explicit status-code checks, hardcoded pagination totals).
-/

/-- What one downstream call produces as variant B sees it: a transport or
body-read error, or a status code together with a body that does
(`some e`) or does not (`none`) unmarshal as an envelope. -/
inductive Fetch where
  | transportErr
  | resp (status : Int) (body : Option EnvelopeG)

/-- Client-visible outcome of `GetNewsByID` after the id check: an error
response with the given status, or the success envelope whose data is the
map with keys "news" and "comments" holding the two downstream `data`
fields relayed verbatim. -/
inductive Outcome where
  | errorResp (code : Int)
  | success (news : GoVal) (comments : GoVal)

/-- `GetNewsByID` body after the id check (`part_000:382-441`): fetch the
article, fail on transport error (500), a non-200 status (relayed), or an
unparsable body (500); then the comments likewise; on success relay both
`data` fields verbatim — absent data (hence `vnull`) included. -/
def GetNewsByID_join (newsF commentsF : Fetch) : Outcome :=
  match newsF with
  | .transportErr => .errorResp 500
  | .resp ns nb =>
    if ns ≠ 200 then .errorResp ns
    else
      match nb with
      | none => .errorResp 500
      | some ne =>
        match commentsF with
        | .transportErr => .errorResp 500
        | .resp cs cb =>
          if cs ≠ 200 then .errorResp cs
          else
            match cb with
            | none => .errorResp 500
            | some ce => .success ne.data ce.data

/-- Id validation of `GetNewsByID` (`part_000:374-380`): 400 both when
`Atoi` fails and when the parsed id is below 1; no downstream request is
issued for a rejected id. -/
def GetNewsByID_route (idStr : String) : Gateway.Route :=
  match goAtoi idStr with
  | none => .reject400
  | some n => if n < 1 then .reject400 else .fetch n

/-- Page clamp of `GetNews` (`part_000:311-314`): `page < 1` becomes 1. -/
def GetNews_page (n : Int) : Int :=
  if n < 1 then 1 else n

/-- Page-size clamp of `GetNews` (`part_000:315-318`): anything outside
`[1,100]` becomes 10. -/
def GetNews_pageSize (n : Int) : Int :=
  if n < 1 ∨ n > 100 then 10 else n

/-- Client-visible outcome of `GetNews`: an error response, or a success
envelope carrying the relayed `data` together with a pagination block the
gateway builds itself. -/
inductive ListOutcome where
  | errorResp (code : Int)
  | success (data : GoVal) (pagination : Pagination)

/-- `GetNews` (`part_000:310-371`): clamp page and page_size, reject a
search string over 100 characters, forward to News Source, fail on
transport error, non-200 status, or an unparsable body; on success relay
only the `data` field of the upstream envelope and attach a pagination
block with the clamped page and page_size and with total and page_count
hardcoded to 100 and 10 — the upstream pagination block is discarded. -/
def GetNews (page pageSize : Int) (search : String) (f : Fetch) :
    ListOutcome :=
  let p := GetNews_page page
  let ps := GetNews_pageSize pageSize
  if search.length > 100 then .errorResp 400
  else
    match f with
    | .transportErr => .errorResp 500
    | .resp s b =>
      if s ≠ 200 then .errorResp s
      else
        match b with
        | none => .errorResp 500
        | some e => .success e.data ⟨p, ps, 100, 10⟩

/-- Failure of one downstream call in the sense of the spec, as observable
by variant B: a transport error or timeout, a non-success HTTP status, or a
body that does not decode as an envelope. -/
def fetchFails : Fetch → Bool
  | .transportErr => true
  | .resp s b => s != 200 || b.isNone

/-- `CreateComment` (`part_000:444-505`): same two-stage pipeline as
variant A — body decode, censor check, only then the persist call — but on
success only the `data` field of the Comment Store envelope is relayed
(wrapped in a fresh success envelope). -/
def CreateComment (body : Option Gateway.CreateReq)
    (censor : Gateway.CensorCall) (persist : Gateway.PersistCall) :
    Gateway.CreateResult :=
  match body with
  | none => ⟨.err 400, false⟩
  | some _ =>
    match censor with
    | .transportErr => ⟨.err 500, false⟩
    | .status c =>
      if c ≠ 200 then ⟨.err 400, false⟩
      else
        match persist with
        | .transportErr => ⟨.err 500, true⟩
        | .resp pc pb =>
          if pc ≠ 200 then ⟨.err pc, true⟩
          else
            match pb with
            | none => ⟨.err 500, true⟩
            | some e => ⟨.okData e.data, true⟩

end AppGateway

namespace CommentService

/-!
The comment store, `src/comment-service/main.go`, with the SQLite
`comments` table modelled as a list of rows in insertion order.  The model
assumes the SQL layer itself does not fail (the 500 paths for database
errors are unreachable in the model); note that go-sqlite3 does not enable
`PRAGMA foreign_keys`, so the declared `FOREIGN KEY (parent_id)` is not
enforced by the engine — all checking is the handler code modelled here.
-/

/-- One row of the `comments` table (`created_at` dropped: no claim
mentions it). -/
structure CommentRow where
  id : Int
  newsId : Int
  parentId : Option Int
  text : String
deriving DecidableEq

/-- The `SELECT EXISTS(SELECT 1 FROM comments WHERE id = ?)` probe. -/
def parentExists (db : List CommentRow) (p : Int) : Bool :=
  db.any (fun r => r.id == p)

/-- AUTOINCREMENT id for the next insert: one more than the largest id in
the table (sufficient for every claim — no claim depends on id reuse
behaviour after deletes). -/
def nextCommentId (db : List CommentRow) : Int :=
  (db.foldl (fun m r => max m r.id) 0) + 1

/-- Response of the create handler in the model: a 400 client error with
its message, or the 200 success envelope carrying the created row. -/
inductive CreateStoreResp where
  | badRequest (msg : String)
  | created (row : CommentRow)
deriving DecidableEq

/-- Whether a create response is the 400 client-error kind. -/
def isClientError : CreateStoreResp → Bool
  | .badRequest _ => true
  | .created _ => false

/-- `CreateCommentHandler` (`main.go:174-242`), after the body decode:
reject non-positive news_id, empty text, text over 1000 — Go measures
`len(req.Text)` in UTF-8 bytes, modelled as `String.utf8ByteSize`, so a
multi-byte text can be rejected although it has at most 1000 characters —
and a non-nil parent_id that matches no existing row; each rejection is a
400 with the table untouched.  Otherwise insert the row and return it. -/
def CreateCommentHandler (db : List CommentRow) (newsId : Int)
    (parentId : Option Int) (text : String) :
    CreateStoreResp × List CommentRow :=
  if newsId ≤ 0 then (.badRequest "news_id must be positive", db)
  else if text.utf8ByteSize = 0 then (.badRequest "text must not be empty", db)
  else if text.utf8ByteSize > 1000 then (.badRequest "text too long", db)
  else if (match parentId with
           | some p => !parentExists db p
           | none => false) then
    (.badRequest "parent_id does not exist", db)
  else
    let row : CommentRow := ⟨nextCommentId db, newsId, parentId, text⟩
    (.created row, db ++ [row])

/-- Response of the delete handler: 404 when no row carries the id,
success otherwise. -/
inductive DeleteStoreResp where
  | notFound
  | deleted
deriving DecidableEq

/-- `DeleteCommentHandler` (`main.go:314-344`), after the id parse: probe
for existence (404 when absent), then `DELETE FROM comments WHERE id = ?` —
which, with foreign keys unenforced by SQLite here, removes exactly the
rows carrying that id and nothing else: children pointing at it stay. -/
def DeleteCommentHandler (db : List CommentRow) (id : Int) :
    DeleteStoreResp × List CommentRow :=
  if db.any (fun r => r.id == id) then
    (.deleted, db.filter (fun r => r.id != id))
  else (.notFound, db)

/-- The referential invariant the create handler establishes: every
non-null parent_id in the table references some existing row id. -/
def parentInvariant (db : List CommentRow) : Bool :=
  db.all (fun r =>
    match r.parentId with
    | none => true
    | some p => db.any (fun q => q.id == p))

end CommentService

/-!
Theorems.  Helper lemmas come first; each claim is settled by one theorem
named after its claim id, with its counterexample and witness theorems
where the status calls for them.
-/

/-- Inversion for the variant A join: a success view is produced exactly
when both goroutines succeeded, and it is composed of their results. -/
theorem joinA_success_iff (nf cf : Gateway.Fetch) (a : Gateway.News) :
    Gateway.GetNewsWithCommentsHandler_join nf cf = .success a ↔
      Gateway.newsSideResult nf = .ok a.id a.title a.content ∧
      Gateway.commentsSideResult cf = .ok a.comments := by
  obtain ⟨ai, ati, ac, acs⟩ := a
  unfold Gateway.GetNewsWithCommentsHandler_join
  rcases hn : Gateway.newsSideResult nf with _ | _ | ⟨i, t, c⟩ <;>
    rcases hc : Gateway.commentsSideResult cf with _ | _ | cs <;>
      simp [Gateway.News.mk.injEq, and_assoc]

/-- Inversion for the variant B sequential join: a success view is produced
exactly when both calls returned status 200 with a decodable envelope, and
it relays the two data fields verbatim. -/
theorem joinB_success_iff (nf cf : AppGateway.Fetch) (d1 d2 : GoVal) :
    AppGateway.GetNewsByID_join nf cf = .success d1 d2 ↔
      ∃ e1 e2, nf = .resp 200 (some e1) ∧ cf = .resp 200 (some e2) ∧
        d1 = e1.data ∧ d2 = e2.data := by
  rcases nf with _ | ⟨ns, nb⟩
  · simp [AppGateway.GetNewsByID_join]
  · unfold AppGateway.GetNewsByID_join
    by_cases hns : ns = 200
    · subst hns
      simp only [ne_eq, not_true_eq_false, if_neg, ite_false, if_false]
      rcases nb with _ | ne
      · simp
      · rcases cf with _ | ⟨cs, cb⟩
        · simp
        · by_cases hcs : cs = 200
          · subst hcs
            rcases cb with _ | ce <;> simp [eq_comm]
          · simp only [ne_eq, hcs, not_false_eq_true, if_true]
            constructor
            · intro h; cases h
            · rintro ⟨e1, e2, h1, h2, h3, h4⟩
              cases h2; exact absurd rfl hcs
    · simp only [ne_eq, hns, not_false_eq_true, if_true]
      constructor
      · intro h; cases h
      · rintro ⟨e1, e2, h1, h2, h3, h4⟩
        cases h1; exact absurd rfl hns

/-- Claim C4 counterexample: `page_size=1000` sent to the concurrent
gateway's `GET /news` is forwarded as 1000, not clamped to 10 as the claim
states for all out-of-range values. -/
theorem C4_counterexample :
    Gateway.GetNewsHandler_pageSize 1000 = 1000 ∧
    Gateway.GetNewsHandler_pageSize 1000 ≠ 10 := by
  constructor <;> decide

/-- Claim C4 (amended): the sequential gateway forwards `page_size`
unchanged inside `[1,100]` and clamps every out-of-range value — 0,
negatives and 1000 included — to 10; the concurrent gateway clamps only
values below 1 to 10 and forwards every positive value, 1000 included,
unchanged. -/
theorem C4_page_size_clamp :
    (∀ n : Int, AppGateway.GetNews_pageSize n =
        if 1 ≤ n ∧ n ≤ 100 then n else 10) ∧
    (∀ n : Int, Gateway.GetNewsHandler_pageSize n =
        if 1 ≤ n then n else 10) := by
  constructor <;> intro n <;>
    simp only [AppGateway.GetNews_pageSize, Gateway.GetNewsHandler_pageSize] <;>
    split_ifs <;> omega

/-- Claim C5 counterexample: the concurrent gateway's `GET /news/0` is not
rejected — `strconv.Atoi` succeeds on "0", so the handler proceeds to issue
both downstream calls with id 0 instead of answering 400. -/
theorem C5_counterexample :
    Gateway.GetNewsWithCommentsHandler_route "0" = .fetch 0 ∧
    Gateway.GetNewsWithCommentsHandler_route "0" ≠ .reject400 := by
  constructor
  · rfl
  · decide

/-- Claim C5 (amended): a non-numeric path id is rejected with 400 and no
downstream call by both gateways; a parsed id below 1 is rejected only by
the sequential gateway, while the concurrent gateway issues the downstream
calls with it; ids at least 1 proceed in both. -/
theorem C5_id_validation :
    (∀ s, goAtoi s = none →
        Gateway.GetNewsWithCommentsHandler_route s = .reject400 ∧
        AppGateway.GetNewsByID_route s = .reject400) ∧
    (∀ s n, goAtoi s = some n → n < 1 →
        AppGateway.GetNewsByID_route s = .reject400) ∧
    (∀ s n, goAtoi s = some n →
        Gateway.GetNewsWithCommentsHandler_route s = .fetch n) ∧
    (∀ s n, goAtoi s = some n → 1 ≤ n →
        AppGateway.GetNewsByID_route s = .fetch n) := by
  refine ⟨?_, ?_, ?_, ?_⟩
  · intro s h
    constructor <;>
      simp [Gateway.GetNewsWithCommentsHandler_route,
            AppGateway.GetNewsByID_route, h]
  · intro s n h hn
    simp [AppGateway.GetNewsByID_route, h, hn]
  · intro s n h
    simp [Gateway.GetNewsWithCommentsHandler_route, h]
  · intro s n h hn
    simp [AppGateway.GetNewsByID_route, h]
    omega

/-- Claim C5 witness: concrete instances of the amended claim — "abc" is
rejected by both, "0" is rejected by the sequential gateway but proceeds
with id 0 in the concurrent one, "7" proceeds in both. -/
theorem C5_id_validation_witness :
    Gateway.GetNewsWithCommentsHandler_route "abc" = .reject400 ∧
    AppGateway.GetNewsByID_route "abc" = .reject400 ∧
    AppGateway.GetNewsByID_route "0" = .reject400 ∧
    Gateway.GetNewsWithCommentsHandler_route "7" = .fetch 7 ∧
    AppGateway.GetNewsByID_route "7" = .fetch 7 :=
  ⟨(C5_id_validation.1 "abc" rfl).1, (C5_id_validation.1 "abc" rfl).2,
   C5_id_validation.2.1 "0" 0 rfl (by decide),
   C5_id_validation.2.2.1 "7" 7 rfl,
   C5_id_validation.2.2.2 "7" 7 rfl (by decide)⟩

/-- Claim C1 counterexample: against the sequential gateway, a News Source
200 envelope carrying an article and a Comment Store 200 envelope with an
absent `data` field — exactly what the comment store produces for an
article with zero comments — yield an overall success response whose
"comments" entry is the relayed null, contradicting "never comments null
when the overall status is success". -/
theorem C1_counterexample :
    AppGateway.GetNewsByID_join
      (.resp 200 (some ⟨"success",
        .vobj [("id", .vnum 1), ("title", .vstr "t"), ("content", .vstr "c")],
        "", none⟩))
      (.resp 200 (some ⟨"success", .vnull, "", none⟩))
      = .success
          (.vobj [("id", .vnum 1), ("title", .vstr "t"), ("content", .vstr "c")])
          .vnull := rfl

/-- Claim C1 (amended): in the concurrent gateway, if either goroutine
reports a failure the whole request is aborted (500) and no success view is
produced, and every success view is composed of exactly the two goroutine
results — the article plus the decoded comment list.  In the sequential
gateway, if either call fails (transport error or timeout, non-success
status, or a body that does not decode as an envelope) no success view is
produced, and every success view relays the two downstream `data` fields
verbatim — so a success envelope whose `data` was absent is relayed as
null under overall success. -/
theorem C1_all_or_nothing_join :
    (∀ nf cf, (Gateway.newsSideResult nf = .err ∨
        Gateway.commentsSideResult cf = .err) →
        ∀ a, Gateway.GetNewsWithCommentsHandler_join nf cf ≠ .success a) ∧
    (∀ nf cf a, Gateway.GetNewsWithCommentsHandler_join nf cf = .success a →
        Gateway.newsSideResult nf = .ok a.id a.title a.content ∧
        Gateway.commentsSideResult cf = .ok a.comments) ∧
    (∀ nf cf, (AppGateway.fetchFails nf = true ∨
        AppGateway.fetchFails cf = true) →
        ∀ d1 d2, AppGateway.GetNewsByID_join nf cf ≠ .success d1 d2) ∧
    (∀ nf cf d1 d2, AppGateway.GetNewsByID_join nf cf = .success d1 d2 →
        ∃ e1 e2, nf = .resp 200 (some e1) ∧ cf = .resp 200 (some e2) ∧
          d1 = e1.data ∧ d2 = e2.data) := by
  refine ⟨?_, ?_, ?_, ?_⟩
  · intro nf cf h a hs
    rcases (joinA_success_iff nf cf a).mp hs with ⟨h1, h2⟩
    rcases h with h | h
    · rw [h1] at h; cases h
    · rw [h2] at h; cases h
  · intro nf cf a hs
    exact (joinA_success_iff nf cf a).mp hs
  · intro nf cf h d1 d2 hs
    rcases (joinB_success_iff nf cf d1 d2).mp hs with ⟨e1, e2, h1, h2, _, _⟩
    rcases h with h | h
    · rw [h1] at h; simp [AppGateway.fetchFails] at h
    · rw [h2] at h; simp [AppGateway.fetchFails] at h
  · intro nf cf d1 d2 hs
    exact (joinB_success_iff nf cf d1 d2).mp hs

/-- Claim C1 witness: concrete instances of the amended claim — a news
transport error yields no success view in either variant, and concrete
successes decompose into both sides' results. -/
theorem C1_all_or_nothing_join_witness :
    Gateway.GetNewsWithCommentsHandler_join .transportErr .transportErr
      ≠ .success ⟨1, "t", "c", []⟩ ∧
    (Gateway.newsSideResult
        (.body ⟨"success",
          .vobj [("id", .vnum 1), ("title", .vstr "t"),
                 ("content", .vstr "c")], "", none⟩) = .ok 1 "t" "c" ∧
     Gateway.commentsSideResult
        (.body ⟨"success", .varr [], "", none⟩) = .ok []) ∧
    AppGateway.GetNewsByID_join .transportErr (.resp 200 none)
      ≠ .success .vnull .vnull ∧
    (∃ e1 e2,
      (AppGateway.Fetch.resp 200 (some ⟨"success", .vnull, "", none⟩))
        = .resp 200 (some e1) ∧
      (AppGateway.Fetch.resp 200 (some ⟨"success", .varr [], "", none⟩))
        = .resp 200 (some e2) ∧
      GoVal.vnull = e1.data ∧ GoVal.varr [] = e2.data) :=
  ⟨C1_all_or_nothing_join.1 .transportErr .transportErr (Or.inl rfl)
     ⟨1, "t", "c", []⟩,
   C1_all_or_nothing_join.2.1
     (.body ⟨"success",
       .vobj [("id", .vnum 1), ("title", .vstr "t"), ("content", .vstr "c")],
       "", none⟩)
     (.body ⟨"success", .varr [], "", none⟩) ⟨1, "t", "c", []⟩ rfl,
   C1_all_or_nothing_join.2.2.1 .transportErr (.resp 200 none) (Or.inl rfl)
     .vnull .vnull,
   C1_all_or_nothing_join.2.2.2
     (.resp 200 (some ⟨"success", .vnull, "", none⟩))
     (.resp 200 (some ⟨"success", .varr [], "", none⟩)) .vnull (.varr []) rfl⟩

/-- Claim C2: in both gateway variants the persist call to Comment Store is
issued only after the censor call completed with status 200; whenever the
censor reports a non-200 status for a decoded body, the client receives a
400 (forbidden content) and the persist call is never issued. -/
theorem C2_moderate_then_persist :
    (∀ body censor persist,
        (Gateway.CreateCommentHandler body censor persist).persistCalled
            = true →
        censor = .status 200) ∧
    (∀ req (c : Int) persist, c ≠ 200 →
        Gateway.CreateCommentHandler (some req) (.status c) persist
          = ⟨.err 400, false⟩) ∧
    (∀ body censor persist,
        (AppGateway.CreateComment body censor persist).persistCalled = true →
        censor = .status 200) ∧
    (∀ req (c : Int) persist, c ≠ 200 →
        AppGateway.CreateComment (some req) (.status c) persist
          = ⟨.err 400, false⟩) := by
  refine ⟨?_, ?_, ?_, ?_⟩
  · intro body censor persist h
    rcases body with _ | req
    · simp [Gateway.CreateCommentHandler] at h
    · rcases censor with _ | c
      · simp [Gateway.CreateCommentHandler] at h
      · by_cases hc : c = 200
        · subst hc; rfl
        · simp [Gateway.CreateCommentHandler, hc] at h
  · intro req c persist hc
    simp [Gateway.CreateCommentHandler, hc]
  · intro body censor persist h
    rcases body with _ | req
    · simp [AppGateway.CreateComment] at h
    · rcases censor with _ | c
      · simp [AppGateway.CreateComment] at h
      · by_cases hc : c = 200
        · subst hc; rfl
        · simp [AppGateway.CreateComment, hc] at h
  · intro req c persist hc
    simp [AppGateway.CreateComment, hc]

/-- Claim C2 witness: with a censor rejection (status 400) both variants
answer 400 without issuing the persist call, and a run that did persist had
a censor status of 200. -/
theorem C2_moderate_then_persist_witness :
    Gateway.CensorCall.status 200 = .status 200 ∧
    Gateway.CreateCommentHandler (some ⟨5, none, "bad"⟩) (.status 400)
        .transportErr = ⟨.err 400, false⟩ ∧
    AppGateway.CreateComment (some ⟨5, none, "bad"⟩) (.status 400)
        .transportErr = ⟨.err 400, false⟩ :=
  ⟨C2_moderate_then_persist.1 (some ⟨5, none, "bad"⟩) (.status 200)
     .transportErr rfl,
   C2_moderate_then_persist.2.1 ⟨5, none, "bad"⟩ 400 .transportErr (by decide),
   C2_moderate_then_persist.2.2.2 ⟨5, none, "bad"⟩ 400 .transportErr
     (by decide)⟩

/-- Claim C3 counterexample: a comments envelope whose `data` is a string —
the wrong container kind — is not treated as a server error by the
concurrent gateway: the cast guard fails silently, the comment list stays
nil, and the client receives the article under a success status with an
empty comment list. -/
theorem C3_counterexample :
    Gateway.GetNewsWithCommentsHandler_join
      (.body ⟨"success",
        .vobj [("id", .vnum 1), ("title", .vstr "t"), ("content", .vstr "c")],
        "", none⟩)
      (.body ⟨"success", .vstr "oops", "", none⟩)
      = .success ⟨1, "t", "c", []⟩ := rfl

/-- Claim C3 (amended): a news `data` that is not an object is treated as a
server error (500) like a transport failure, as the claim states; but a
comments `data` that is not a sequence is silently relayed as an empty
comment list under a success status, and a news `data` object missing a
required field is an unguarded type-assertion panic, not a server error. -/
theorem C3_structural_mismatch :
    (∀ e cf cs, (∀ fields, e.data ≠ GoVal.vobj fields) →
        Gateway.commentsSideResult cf = .ok cs →
        Gateway.GetNewsWithCommentsHandler_join (.body e) cf
          = .serverError) ∧
    (∀ e nf i t c, (∀ elems, e.data ≠ GoVal.varr elems) →
        Gateway.newsSideResult nf = .ok i t c →
        Gateway.GetNewsWithCommentsHandler_join nf (.body e)
          = .success ⟨i, t, c, []⟩) ∧
    (∀ fields, (∀ i : Int, lookupField fields "id" ≠ .vnum i) →
        Gateway.decodeNewsData (.vobj fields) = .panicked) := by
  refine ⟨?_, ?_, ?_⟩
  · intro e cf cs hobj hc
    have hn : Gateway.newsSideResult (.body e) = .err := by
      have hd : Gateway.decodeNewsData e.data = .formatErr := by
        rcases he : e.data with _ | b | n | s | elems | fields
        · rfl
        · rfl
        · rfl
        · rfl
        · rfl
        · exact absurd he (hobj fields)
      simp [Gateway.newsSideResult, hd]
    unfold Gateway.GetNewsWithCommentsHandler_join
    rw [hn, hc]
  · intro e nf i t c harr hn
    have hc : Gateway.commentsSideResult (.body e) = .ok [] := by
      have hd : Gateway.decodeCommentsData e.data = some [] := by
        rcases he : e.data with _ | b | n | s | elems | fields
        · rfl
        · rfl
        · rfl
        · rfl
        · exact absurd he (harr elems)
        · rfl
      simp [Gateway.commentsSideResult, hd]
    unfold Gateway.GetNewsWithCommentsHandler_join
    rw [hn, hc]
  · intro fields hid
    show (match lookupField fields "id", lookupField fields "title",
          lookupField fields "content" with
      | .vnum i, .vstr t, .vstr c => Gateway.NewsDecode.ok i t c
      | _, _, _ => Gateway.NewsDecode.panicked) = .panicked
    rcases h1 : lookupField fields "id" with _ | b | n | s | es | fs
    case vnum => exact absurd h1 (hid n)
    all_goals rfl

/-- Claim C3 witness: concrete instances of the amended claim — a news
data that is a bare number gives a 500 even though the comments decoded
fine; a comments data that is a string gives a success with an empty list;
a news object with only a title panics. -/
theorem C3_structural_mismatch_witness :
    Gateway.GetNewsWithCommentsHandler_join
        (.body ⟨"success", .vnum 7, "", none⟩)
        (.body ⟨"success", .varr [], "", none⟩) = .serverError ∧
    Gateway.GetNewsWithCommentsHandler_join
        (.body ⟨"success",
          .vobj [("id", .vnum 2), ("title", .vstr "u"),
                 ("content", .vstr "v")], "", none⟩)
        (.body ⟨"success", .vstr "zz", "", none⟩)
      = .success ⟨2, "u", "v", []⟩ ∧
    Gateway.decodeNewsData (.vobj [("title", .vstr "only")]) = .panicked :=
  ⟨C3_structural_mismatch.1 ⟨"success", .vnum 7, "", none⟩
     (.body ⟨"success", .varr [], "", none⟩) []
     (fun fields h => GoVal.noConfusion h) rfl,
   C3_structural_mismatch.2.1 ⟨"success", .vstr "zz", "", none⟩
     (.body ⟨"success",
       .vobj [("id", .vnum 2), ("title", .vstr "u"), ("content", .vstr "v")],
       "", none⟩) 2 "u" "v"
     (fun elems h => GoVal.noConfusion h) rfl,
   C3_structural_mismatch.2.2 [("title", .vstr "only")]
     (fun i h => by simp [lookupField] at h)⟩

/-- Membership is preserved by the delete handler for every row whose id
differs from the deleted one (helper shared by the parts of C10). -/
theorem deleteKeepsOtherRows (db : List CommentService.CommentRow) (id : Int)
    (r : CommentService.CommentRow) (hr : r ∈ db) (hne : r.id ≠ id) :
    r ∈ (CommentService.DeleteCommentHandler db id).2 := by
  unfold CommentService.DeleteCommentHandler
  by_cases h : db.any (fun q => q.id == id) = true
  · simp only [h, if_true]
    exact List.mem_filter.mpr ⟨hr, by simp [hne]⟩
  · simp only [h, if_false]
    simpa using hr

/-- Claim C6: with a non-null parent_id, the comment store's create either
answers 400 leaving the table unchanged (in particular whenever no row
carries that parent id), or inserts exactly one row — and an insert implies
the parent row existed beforehand. -/
theorem C6_parent_must_exist :
    (∀ db newsId p text, CommentService.parentExists db p = false →
        CommentService.isClientError
          (CommentService.CreateCommentHandler db newsId (some p) text).1
            = true ∧
        (CommentService.CreateCommentHandler db newsId (some p) text).2
          = db) ∧
    (∀ db newsId p text row db2,
        CommentService.CreateCommentHandler db newsId (some p) text
          = (.created row, db2) →
        CommentService.parentExists db p = true ∧ db2 = db ++ [row]) := by
  constructor
  · intro db newsId p text h
    unfold CommentService.CreateCommentHandler
    simp only [h]
    split_ifs <;> simp_all [CommentService.isClientError]
  · intro db newsId p text row db2 h
    unfold CommentService.CreateCommentHandler at h
    split_ifs at h with h1 h2 h3 h4
    · cases h
    · cases h
    · cases h
    · cases h
    · refine ⟨?_, ?_⟩
      · simpa using h4
      · rcases h with ⟨h5, h6⟩
        simp

/-- Claim C6 witness: creating with parent_id 9999 on an empty table is a
400 leaving the table empty; a successful create against an existing
parent shows the parent existed and the row was appended. -/
theorem C6_parent_must_exist_witness :
    CommentService.isClientError
      (CommentService.CreateCommentHandler [] 5 (some 9999) "hi").1 = true ∧
    (CommentService.CreateCommentHandler [] 5 (some 9999) "hi").2 = [] ∧
    CommentService.parentExists [⟨1, 5, none, "root"⟩] 1 = true ∧
    ([⟨1, 5, none, "root"⟩, ⟨2, 5, some 1, "hi"⟩] :
        List CommentService.CommentRow)
      = [⟨1, 5, none, "root"⟩] ++ [⟨2, 5, some 1, "hi"⟩] :=
  ⟨(C6_parent_must_exist.1 [] 5 9999 "hi" rfl).1,
   (C6_parent_must_exist.1 [] 5 9999 "hi" rfl).2,
   (C6_parent_must_exist.2 [⟨1, 5, none, "root"⟩] 5 1 "hi"
      ⟨2, 5, some 1, "hi"⟩ [⟨1, 5, none, "root"⟩, ⟨2, 5, some 1, "hi"⟩]
      rfl).1,
   (C6_parent_must_exist.2 [⟨1, 5, none, "root"⟩] 5 1 "hi"
      ⟨2, 5, some 1, "hi"⟩ [⟨1, 5, none, "root"⟩, ⟨2, 5, some 1, "hi"⟩]
      rfl).2⟩

/-- UTF-8 byte length of a replicated character list (helper for the
length-boundary claims): n copies of one character occupy n times its
utf8Size bytes. -/
theorem utf8ByteSize_go_replicate (c : Char) (n : Nat) :
    String.utf8ByteSize.go (List.replicate n c) = n * c.utf8Size := by
  induction n with
  | zero => simp [List.replicate, String.utf8ByteSize.go]
  | succ k ih =>
    rw [List.replicate_succ]
    show String.utf8ByteSize.go (List.replicate k c) + c.utf8Size
      = (k + 1) * c.utf8Size
    rw [ih]; ring

/-- UTF-8 byte length of a string made of n copies of one character. -/
theorem utf8ByteSize_mk_replicate (n : Nat) (c : Char) :
    (String.mk (List.replicate n c)).utf8ByteSize = n * c.utf8Size :=
  utf8ByteSize_go_replicate c n

/-- Rejection of over-long text by the comment store create (helper): any
text over 1000 UTF-8 bytes gives a 400 client error with the table
unchanged. -/
theorem createComment_rejects_long (db : List CommentService.CommentRow)
    (newsId : Int) (parentId : Option Int) (text : String)
    (h : 1000 < text.utf8ByteSize) :
    CommentService.isClientError
      (CommentService.CreateCommentHandler db newsId parentId text).1
        = true ∧
    (CommentService.CreateCommentHandler db newsId parentId text).2 = db := by
  unfold CommentService.CreateCommentHandler
  split_ifs <;> simp_all [CommentService.isClientError]

/-- Claim C7 counterexample: a text of exactly 1000 characters is not
always accepted — the handler checks `len(req.Text)` in UTF-8 bytes, so
1000 copies of the two-byte Cyrillic character give 2000 bytes and the
create is rejected with a 400, table unchanged. -/
theorem C7_counterexample :
    (String.mk (List.replicate 1000 'й')).length = 1000 ∧
    CommentService.isClientError
      (CommentService.CreateCommentHandler [] 5 none
        (String.mk (List.replicate 1000 'й'))).1 = true ∧
    (CommentService.CreateCommentHandler [] 5 none
        (String.mk (List.replicate 1000 'й'))).2 = [] := by
  have hb : (String.mk (List.replicate 1000 'й')).utf8ByteSize = 2000 := by
    rw [utf8ByteSize_mk_replicate]; rfl
  have hrej := createComment_rejects_long [] 5 none
    (String.mk (List.replicate 1000 'й')) (by rw [hb]; omega)
  refine ⟨?_, hrej.1, hrej.2⟩
  show (List.replicate 1000 'й').length = 1000
  exact List.length_replicate 1000 'й'

/-- Claim C7 (amended): the comment store measures text length in UTF-8
bytes (Go `len`); it rejects empty text and text over 1000 bytes with a
400 leaving the table unchanged — so 1001 bytes, in particular 1001 ASCII
characters, is rejected — and accepts text of exactly 1000 bytes (for a
positive news_id and no parent) by inserting the row; a 1000-character
text is therefore accepted only when it is 1000 bytes, e.g. all-ASCII. -/
theorem C7_text_length_bounds :
    (∀ db newsId parentId text, text.utf8ByteSize = 0 →
        CommentService.isClientError
          (CommentService.CreateCommentHandler db newsId parentId text).1
            = true ∧
        (CommentService.CreateCommentHandler db newsId parentId text).2
          = db) ∧
    (∀ db newsId parentId text, 1000 < text.utf8ByteSize →
        CommentService.isClientError
          (CommentService.CreateCommentHandler db newsId parentId text).1
            = true ∧
        (CommentService.CreateCommentHandler db newsId parentId text).2
          = db) ∧
    (∀ db newsId text, 0 < newsId → text.utf8ByteSize = 1000 →
        CommentService.CreateCommentHandler db newsId none text
          = (.created ⟨CommentService.nextCommentId db, newsId, none, text⟩,
             db ++ [⟨CommentService.nextCommentId db, newsId, none,
                     text⟩])) := by
  refine ⟨?_, ?_, ?_⟩
  · intro db newsId parentId text h
    unfold CommentService.CreateCommentHandler
    split_ifs <;> simp_all [CommentService.isClientError]
  · exact fun db newsId parentId text h =>
      createComment_rejects_long db newsId parentId text h
  · intro db newsId text hn h
    unfold CommentService.CreateCommentHandler
    split_ifs with h1 h2 h3 h4
    · omega
    · omega
    · omega
    · simp at h4
    · rfl

/-- Claim C7 witness: empty text is a 400, 1001 ASCII characters (1001
bytes) is a 400, and 1000 ASCII characters (exactly 1000 bytes) is
accepted and inserted on an empty table. -/
theorem C7_text_length_bounds_witness :
    CommentService.isClientError
      (CommentService.CreateCommentHandler [] 5 none "").1 = true ∧
    CommentService.isClientError
      (CommentService.CreateCommentHandler [] 5 none
        (String.mk (List.replicate 1001 'a'))).1 = true ∧
    CommentService.CreateCommentHandler [] 5 none
        (String.mk (List.replicate 1000 'a'))
      = (.created ⟨1, 5, none, String.mk (List.replicate 1000 'a')⟩,
         [⟨1, 5, none, String.mk (List.replicate 1000 'a')⟩]) :=
  ⟨(C7_text_length_bounds.1 [] 5 none "" rfl).1,
   (C7_text_length_bounds.2.1 [] 5 none (String.mk (List.replicate 1001 'a'))
      (by rw [utf8ByteSize_mk_replicate]; decide)).1,
   C7_text_length_bounds.2.2 [] 5 (String.mk (List.replicate 1000 'a'))
     (by decide)
     (by rw [utf8ByteSize_mk_replicate]; decide)⟩

/-- Claim C8 counterexample: the sequential gateway's `GET /news` discards
the News Source pagination block (total 5, page_count 1 here) and answers
with its own hardcoded totals (100, 10) — the envelope is not relayed
unchanged. -/
theorem C8_counterexample :
    AppGateway.GetNews 1 10 ""
      (.resp 200 (some ⟨"success", .varr [], "", some ⟨1, 10, 5, 1⟩⟩))
      = .success (.varr []) ⟨1, 10, 100, 10⟩ := rfl

/-- Claim C8 (amended): the concurrent gateway relays the decoded News
Source envelope — pagination block included — unchanged to the client; the
sequential gateway relays only the envelope's data field and attaches a
pagination block of its own, with the clamped page and page_size and with
total and page_count hardcoded to 100 and 10. -/
theorem C8_envelope_relay :
    (∀ e, Gateway.GetNewsHandler_relay (.body e) = .relay e) ∧
    (∀ page pageSize search e, search.length ≤ 100 →
        AppGateway.GetNews page pageSize search (.resp 200 (some e))
          = .success e.data
              ⟨AppGateway.GetNews_page page,
               AppGateway.GetNews_pageSize pageSize, 100, 10⟩) := by
  constructor
  · intro e; rfl
  · intro page pageSize search e h
    unfold AppGateway.GetNews
    have hs : ¬ search.length > 100 := by omega
    simp [hs]

/-- Claim C8 witness: a concrete sequential-gateway run with page_size 1000
and upstream pagination (total 5) answers success with the upstream data
but pagination page_size 10 (clamped) and hardcoded totals 100 and 10. -/
theorem C8_envelope_relay_witness :
    Gateway.GetNewsHandler_relay
        (.body ⟨"success", .varr [], "", some ⟨1, 10, 5, 1⟩⟩)
      = .relay ⟨"success", .varr [], "", some ⟨1, 10, 5, 1⟩⟩ ∧
    AppGateway.GetNews 0 1000 ""
        (.resp 200 (some ⟨"success", .varr [], "", some ⟨1, 10, 5, 1⟩⟩))
      = .success (.varr []) ⟨1, 10, 100, 10⟩ :=
  ⟨C8_envelope_relay.1 ⟨"success", .varr [], "", some ⟨1, 10, 5, 1⟩⟩,
   C8_envelope_relay.2 0 1000 ""
     ⟨"success", .varr [], "", some ⟨1, 10, 5, 1⟩⟩ (by decide)⟩

/-- Claim C9 counterexample: a news success envelope whose data is an
object without an "id" key makes the unguarded assertion
`news["id"].(float64)` panic — the decode is not total on object-shaped
data. -/
theorem C9_counterexample :
    Gateway.decodeNewsData (.vobj [("title", .vstr "x")]) = .panicked := rfl

/-- Claim C9 (amended): the news-data decode yields an article exactly when
the object carries a numeric id, a string title and a string content;
non-object data yields an error result; but an object whose "title" key is
missing or not a string (likewise "id"/"content") panics via an unguarded
type assertion instead of yielding an error. -/
theorem C9_news_decode_totality :
    (∀ fields i t c,
        lookupField fields "id" = .vnum i →
        lookupField fields "title" = .vstr t →
        lookupField fields "content" = .vstr c →
        Gateway.decodeNewsData (.vobj fields) = .ok i t c) ∧
    (∀ v, (∀ fields, v ≠ GoVal.vobj fields) →
        Gateway.decodeNewsData v = .formatErr) ∧
    (∀ fields, (∀ t : String, lookupField fields "title" ≠ .vstr t) →
        Gateway.decodeNewsData (.vobj fields) = .panicked) := by
  refine ⟨?_, ?_, ?_⟩
  · intro fields i t c h1 h2 h3
    show (match lookupField fields "id", lookupField fields "title",
          lookupField fields "content" with
      | .vnum i, .vstr t, .vstr c => Gateway.NewsDecode.ok i t c
      | _, _, _ => Gateway.NewsDecode.panicked) = .ok i t c
    rw [h1, h2, h3]
  · intro v hv
    rcases hv2 : v with _ | b | n | s | es | fs
    · rfl
    · rfl
    · rfl
    · rfl
    · rfl
    · exact absurd hv2 (hv fs)
  · intro fields ht
    show (match lookupField fields "id", lookupField fields "title",
          lookupField fields "content" with
      | .vnum i, .vstr t, .vstr c => Gateway.NewsDecode.ok i t c
      | _, _, _ => Gateway.NewsDecode.panicked) = .panicked
    rcases h1 : lookupField fields "id" with _ | b | n | s | es | fs
    case vnum =>
      rcases h2 : lookupField fields "title" with _ | b2 | n2 | s2 | es2 | fs2
      case vstr => exact absurd h2 (ht s2)
      all_goals rfl
    all_goals rfl

/-- Claim C9 witness: a well-formed object decodes to the article, a bare
number is a format error, and an empty object panics on the missing
title. -/
theorem C9_news_decode_totality_witness :
    Gateway.decodeNewsData
        (.vobj [("id", .vnum 2), ("title", .vstr "a"), ("content", .vstr "b")])
      = .ok 2 "a" "b" ∧
    Gateway.decodeNewsData (.vnum 3) = .formatErr ∧
    Gateway.decodeNewsData (.vobj []) = .panicked :=
  ⟨C9_news_decode_totality.1
     [("id", .vnum 2), ("title", .vstr "a"), ("content", .vstr "b")]
     2 "a" "b" rfl rfl rfl,
   C9_news_decode_totality.2.1 (.vnum 3)
     (fun fields h => GoVal.noConfusion h),
   C9_news_decode_totality.2.2 []
     (fun t h => by simp [lookupField] at h)⟩

/-- Claim C10: deleting an existing id removes exactly the rows carrying
that id (others, children of the deleted comment included, stay), and the
referential invariant established at creation time is not preserved: a
concrete two-row table satisfying it stops satisfying it after the parent
row is deleted. -/
theorem C10_delete_leaves_children :
    (∀ db id, (db.any (fun r => r.id == id)) = true →
        CommentService.DeleteCommentHandler db id
          = (.deleted, db.filter (fun r => r.id != id))) ∧
    (∀ db id r, r ∈ db → r.id ≠ id →
        r ∈ (CommentService.DeleteCommentHandler db id).2) ∧
    (∀ db id r, r ∈ db → r.parentId = some id → r.id ≠ id →
        r ∈ (CommentService.DeleteCommentHandler db id).2) ∧
    (CommentService.parentInvariant
        [⟨1, 5, none, "a"⟩, ⟨2, 5, some 1, "b"⟩] = true ∧
     CommentService.DeleteCommentHandler
        [⟨1, 5, none, "a"⟩, ⟨2, 5, some 1, "b"⟩] 1
       = (.deleted, [⟨2, 5, some 1, "b"⟩]) ∧
     CommentService.parentInvariant [⟨2, 5, some 1, "b"⟩] = false) := by
  refine ⟨?_, ?_, ?_, ?_⟩
  · intro db id h
    unfold CommentService.DeleteCommentHandler
    simp [h]
  · intro db id r hr hne
    exact deleteKeepsOtherRows db id r hr hne
  · intro db id r hr hp hne
    exact deleteKeepsOtherRows db id r hr hne
  · refine ⟨by decide, by decide, by decide⟩

/-- Claim C10 witness: in the concrete two-row table, deleting id 1
succeeds and the child row (id 2, parent_id 1) is still present
afterwards. -/
theorem C10_delete_leaves_children_witness :
    CommentService.DeleteCommentHandler
        [⟨1, 5, none, "a"⟩, ⟨2, 5, some 1, "b"⟩] 1
      = (.deleted,
         ([⟨1, 5, none, "a"⟩, ⟨2, 5, some 1, "b"⟩] :
            List CommentService.CommentRow).filter
           (fun r => r.id != 1)) ∧
    (⟨2, 5, some 1, "b"⟩ : CommentService.CommentRow)
      ∈ (CommentService.DeleteCommentHandler
          [⟨1, 5, none, "a"⟩, ⟨2, 5, some 1, "b"⟩] 1).2 :=
  ⟨C10_delete_leaves_children.1
     [⟨1, 5, none, "a"⟩, ⟨2, 5, some 1, "b"⟩] 1 (by decide),
   C10_delete_leaves_children.2.2.1
     [⟨1, 5, none, "a"⟩, ⟨2, 5, some 1, "b"⟩] 1 ⟨2, 5, some 1, "b"⟩
     (by decide) rfl (by decide)⟩

end APIv4
